import Mathlib

/-!
Verification of the SEFAZ-CE DAE batch automation core.

This file gives a shallow embedding, in Lean 4, of the decision logic of the
repository `icms-normal-ce`:

* `src/sefaz_ce/excel_filiais.py` — spreadsheet extraction helpers
  (header normalization, period parsing from the title area, identifier
  digit normalization, building the per-identifier work items);
* `src/sefaz_ce/automacao_sefaz_ce.py` — the batch orchestrator
  `executar_fluxo_por_ie` and its per-item steps.

Modelling conventions:

* Python `str` values are Lean `String`s; character-level operations are
  carried out on `List Char`.  `str.strip` is modelled by `pyStrip`
  (whitespace removal at both ends), `str.isdigit` by ASCII `Char.isDigit`
  (the claims under study involve ASCII data only).
* Python numbers (`int`/`float`) are modelled as exact rationals `ℚ`.
  Where a claim depends on the IEEE-754 binary64 value of a specific
  literal, that dyadic rational is spelled out explicitly and documented.
* Browser interaction is external: the orchestrator is embedded as a pure
  function parameterised by an environment `Nat → ComportamentoItem`
  describing, for the item at each position, the outcome of each
  page-interaction step (success, expected timeout, or a raised exception,
  together with whether the error-screenshot call itself succeeds).
* A Python exception that escapes the per-item loop is modelled by
  `Except.error ()`: the function terminates without returning its lists.
-/

/-! ### Character and string helpers (models of Python `str` methods) -/

/-- Model of Python `str.strip()` on a character list: drop whitespace from
both ends. -/
def pyStripL (l : List Char) : List Char :=
  ((l.dropWhile Char.isWhitespace).reverse.dropWhile Char.isWhitespace).reverse

/-- Model of Python `str.strip()` on a `String`. -/
def pyStrip (s : String) : String :=
  ⟨pyStripL s.toList⟩

/-- Model of Python `str.lower()` (ASCII case folding; the accented letters
relevant to this repository are handled by `dobrarDiacritico` below). -/
def pyLowerL (l : List Char) : List Char :=
  l.map Char.toLower

/-- Decimal value of a list of ASCII digits (model of Python `int(p)` for a
string `p` with `p.isdigit()` true). -/
def digitosParaNat (l : List Char) : ℕ :=
  l.foldl (fun n c => 10 * n + (c.toNat - 48)) 0

/-! ### `excel_filiais.ie_apenas_digitos` -/

/-- Number of digits of a Ceará state registration (constant
`DIGITOS_IE_CE` in `excel_filiais.py`). -/
def DIGITOS_IE_CE : ℕ := 9

/-- Model of `str.zfill` as used in `excel_filiais.py`: left-pad with `'0'`
up to the target width.  (Python's `zfill` treats a leading sign specially;
every call site in the source passes a digits-only string, where the two
agree.) -/
def zfillL (largura : ℕ) (l : List Char) : List Char :=
  List.replicate (largura - l.length) '0' ++ l

/-- Embedding of `excel_filiais.ie_apenas_digitos`: keep only the digits of
the stripped identifier, left-zero-pad to 9 characters when not longer,
otherwise truncate to the first 9 digits. -/
def ie_apenas_digitos (ie : String) : String :=
  if ie = "" then ""
  else
    let digitos := (pyStripL ie.toList).filter Char.isDigit
    if digitos.length ≤ DIGITOS_IE_CE then ⟨zfillL DIGITOS_IE_CE digitos⟩
    else ⟨digitos.take DIGITOS_IE_CE⟩

/-- Embedding of `excel_filiais._normalizar_ie_zeros_esquerda`: left-pad a
purely numeric identifier shorter than 9 characters with zeros. -/
def normalizar_ie_zeros_esquerda (ie : String) : String :=
  if ie = "" ∨ DIGITOS_IE_CE ≤ ie.length then ie
  else if ¬ ie.toList.all Char.isDigit then ie
  else ⟨zfillL DIGITOS_IE_CE ie.toList⟩

/-! ### Cell values -/

/-- Value held by a spreadsheet cell or a work-item field, as seen by the
Python code: `None`, a number (`int`/`float`, modelled as `ℚ`), a string,
or a `datetime` (year, month, day — the time part is never inspected). -/
inductive PyVal where
  | none : PyVal
  | num (q : ℚ) : PyVal
  | str (s : String) : PyVal
  | data (ano mes dia : ℤ) : PyVal
deriving DecidableEq

/-! ### `automacao_sefaz_ce._valor_total_invalido` -/

/-- Embedding of `automacao_sefaz_ce._valor_total_invalido`: `True` when
the TOTAL value must not be processed — `None`, a number equal to zero, or
a string that is blank or `"null"` after stripping and lowercasing. -/
def valor_total_invalido (valor : PyVal) : Bool :=
  match valor with
  | .none => true
  | .num q => q = 0
  | .str s =>
      let t := pyLowerL (pyStripL s.toList)
      t = [] ∨ t = "null".toList
  | .data _ _ _ => false

/-! ### Civil calendar arithmetic (model of Python `datetime` + `timedelta`) -/

/-- Convert a day count (days since 1970-01-01) to a proleptic Gregorian
civil date `(year, month, day)`.  Days-to-civil conversion in the style of
Howard Hinnant's `civil_from_days`; all divisions are Euclidean, which for
the positive divisors used here is floor division, so the function is
correct for every integer input. -/
def civilDeDias (z0 : ℤ) : ℤ × ℤ × ℤ :=
  let z := z0 + 719468
  let era := Int.ediv z 146097
  let doe := z - era * 146097
  let yoe := Int.ediv (doe - Int.ediv doe 1460 + Int.ediv doe 36524 - Int.ediv doe 146096) 365
  let y := yoe + era * 400
  let doy := doe - (365 * yoe + Int.ediv yoe 4 - Int.ediv yoe 100)
  let mp := Int.ediv (5 * doy + 2) 153
  let d := doy - Int.ediv (153 * mp + 2) 5 + 1
  let m := mp + (if mp < 10 then 3 else -9)
  (y + (if m ≤ 2 then 1 else 0), m, d)

/-- Day count (relative to 1970-01-01) of the Excel serial epoch
1899-12-30 used in `_parsear_celula_periodo`. -/
def diasEpocaExcel : ℤ := -25569

/-- Model of `datetime(1899, 12, 30) + timedelta(days=n)`: the civil date
of Excel serial number `n`. -/
def dataDeSerialExcel (n : ℤ) : ℤ × ℤ × ℤ :=
  civilDeDias (n + diasEpocaExcel)

/-- Model of Python `int()` applied to a number: truncation toward zero. -/
def truncarParaZero (q : ℚ) : ℤ :=
  if q < 0 then - Rat.floor (-q) else Rat.floor q

/-! ### `excel_filiais._parsear_celula_periodo` -/

/-- Month number for a Portuguese three-letter month abbreviation (table
`MESES_ABREV` in `excel_filiais.py`). -/
def mesDeAbrev (l : List Char) : Option ℤ :=
  match l with
  | ['j', 'a', 'n'] => some 1
  | ['f', 'e', 'v'] => some 2
  | ['m', 'a', 'r'] => some 3
  | ['a', 'b', 'r'] => some 4
  | ['m', 'a', 'i'] => some 5
  | ['j', 'u', 'n'] => some 6
  | ['j', 'u', 'l'] => some 7
  | ['a', 'g', 'o'] => some 8
  | ['s', 'e', 't'] => some 9
  | ['o', 'u', 't'] => some 10
  | ['n', 'o', 'v'] => some 11
  | ['d', 'e', 'z'] => some 12
  | _ => none

/-- Model of the regular expression of `_parsear_celula_periodo`: a
three-letter month abbreviation, one separator character (whitespace,
hyphen or slash), and exactly two digits, anchored at both ends,
applied to the lowercased, stripped cell text, together with the
century rule (two-digit year below 50 means 2000s, otherwise 1900s)
and the 1995–2030 plausibility window. -/
def parsearMesAbrev (l : List Char) : Option (ℤ × ℤ) :=
  match l with
  | [a, b, c, sep, d1, d2] =>
      if (sep.isWhitespace || sep = '-' || sep = '/') && d1.isDigit && d2.isDigit then
        match mesDeAbrev [a, b, c] with
        | some mes =>
            let ano2 : ℤ := ((d1.toNat - 48) * 10 + (d2.toNat - 48) : ℕ)
            let ano := if ano2 < 50 then 2000 + ano2 else 1900 + ano2
            if 1995 ≤ ano ∧ ano ≤ 2030 then some (mes, ano) else none
        | none => none
      else none
  | _ => none

/-- Model of `re.split(r"[/\-.]", s)`: split at every slash, hyphen or
period, keeping empty segments (they are discarded by the strip filter at
the call site, as in the source). -/
def dividirDelims : List Char → List (List Char)
  | [] => [[]]
  | c :: resto =>
      if c = '/' ∨ c = '-' ∨ c = '.' then [] :: dividirDelims resto
      else
        match dividirDelims resto with
        | [] => [[c]]
        | p :: ps => (c :: p) :: ps

/-- Model of the delimiter branch of `_parsear_celula_periodo`: split the
string at `/ - .`, keep the stripped non-empty parts, convert the purely
numeric parts; two numbers are month/year, three or more use the second
and third numbers (day/month/year with the middle two taken). -/
def parsearDelims (l : List Char) : Option (ℤ × ℤ) :=
  let part := ((dividirDelims l).map pyStripL).filter (fun p => p ≠ [])
  if 2 ≤ part.length then
    let nums : List ℤ :=
      (part.filter (fun p => p.all Char.isDigit)).map (fun p => (digitosParaNat p : ℤ))
    match nums with
    | [mes, ano] =>
        if (1 ≤ mes ∧ mes ≤ 12) ∧ (1995 ≤ ano ∧ ano ≤ 2030) then some (mes, ano) else none
    | _ :: mes :: ano :: _ =>
        if (1 ≤ mes ∧ mes ≤ 12) ∧ (1995 ≤ ano ∧ ano ≤ 2030) then some (mes, ano) else none
    | _ => none
  else none

/-- Embedding of `excel_filiais._parsear_celula_periodo`: extract a
`(month, year)` pair from a cell holding a `datetime`, an Excel date
serial number, or a string (month abbreviation or delimiter-separated
numbers).  The source returns the pair `(None, None)` on failure and a
pair of two numbers on success; both components are always set together,
so the result is modelled as `Option (ℤ × ℤ)`. -/
def parsear_celula_periodo (valor : PyVal) : Option (ℤ × ℤ) :=
  match valor with
  | .data ano mes _ =>
      if (1 ≤ mes ∧ mes ≤ 12) ∧ (1995 ≤ ano ∧ ano ≤ 2030) then some (mes, ano) else none
  | .num q =>
      if 2000 < q ∧ q < 100000 then
        let c := dataDeSerialExcel (truncarParaZero q)
        if (1 ≤ c.2.1 ∧ c.2.1 ≤ 12) ∧ (1995 ≤ c.1 ∧ c.1 ≤ 2030) then some (c.2.1, c.1)
        else none
      else none
  | .str s =>
      let t := pyStripL s.toList
      if t = [] then none
      else
        match parsearMesAbrev (pyLowerL t) with
        | some r => some r
        | none => parsearDelims t
  | .none => none

/-! ### `excel_filiais._extrair_periodo_da_area_titulo` -/

/-- Bound on the rows scanned for the reference period
(`MAX_LINHAS_BUSCA_PERIODO`). -/
def MAX_LINHAS_BUSCA_PERIODO : ℕ := 12

/-- Bound on the columns scanned for the reference period
(`MAX_COLUNAS_BUSCA_PERIODO`). -/
def MAX_COLUNAS_BUSCA_PERIODO : ℕ := 30

/-- First successfully parsed period among the cells of one row (the
source skips `None` cells explicitly; `parsear_celula_periodo` is `none`
on those anyway). -/
def periodoDaLinha (celulas : List PyVal) : Option (ℤ × ℤ) :=
  match celulas with
  | [] => Option.none
  | c :: resto =>
      match parsear_celula_periodo c with
      | some r => some r
      | none => periodoDaLinha resto

/-- Row-major scan of a list of rows for the first parseable period. -/
def periodoDasLinhas (linhas : List (List PyVal)) : Option (ℤ × ℤ) :=
  match linhas with
  | [] => Option.none
  | l :: resto =>
      match periodoDaLinha l with
      | some r => some r
      | none => periodoDasLinhas resto

/-- Embedding of `excel_filiais._extrair_periodo_da_area_titulo`: scan the
first 12 rows, 30 columns each, of the sheet (modelled as a list of rows
of cells) for a cell that parses as a month/year pair; raise `ValueError`
(modelled as `Except.error`) when none does. -/
def extrair_periodo_da_area_titulo (planilha : List (List PyVal)) :
    Except String (ℤ × ℤ) :=
  match periodoDasLinhas ((planilha.take MAX_LINHAS_BUSCA_PERIODO).map
      (fun l => l.take MAX_COLUNAS_BUSCA_PERIODO)) with
  | some r => .ok r
  | none =>
      .error ("Período de referência não encontrado na área do título. "
        ++ "Inclua a data (ex.: 1/1/2026) ou mês/ano (ex.: jan-26) ao lado do título "
        ++ "'APURAÇÃO DE ICMS CEARA'.")


/-! ### `excel_filiais._normalizar_cabecalho` and column keys -/

/-- Fold a precomposed accented Latin letter to its base letter.  This
models the `NFD` decomposition followed by removal of combining marks in
`_normalizar_cabecalho` for the Portuguese alphabet used by this
repository's headers (already-decomposed input is outside the model). -/
def dobrarDiacritico (c : Char) : Char :=
  if c = 'á' ∨ c = 'à' ∨ c = 'â' ∨ c = 'ã' ∨ c = 'ä' then 'a'
  else if c = 'Á' ∨ c = 'À' ∨ c = 'Â' ∨ c = 'Ã' ∨ c = 'Ä' then 'A'
  else if c = 'é' ∨ c = 'è' ∨ c = 'ê' ∨ c = 'ë' then 'e'
  else if c = 'É' ∨ c = 'È' ∨ c = 'Ê' ∨ c = 'Ë' then 'E'
  else if c = 'í' ∨ c = 'ì' ∨ c = 'î' ∨ c = 'ï' then 'i'
  else if c = 'Í' ∨ c = 'Ì' ∨ c = 'Î' ∨ c = 'Ï' then 'I'
  else if c = 'ó' ∨ c = 'ò' ∨ c = 'ô' ∨ c = 'õ' ∨ c = 'ö' then 'o'
  else if c = 'Ó' ∨ c = 'Ò' ∨ c = 'Ô' ∨ c = 'Õ' ∨ c = 'Ö' then 'O'
  else if c = 'ú' ∨ c = 'ù' ∨ c = 'û' ∨ c = 'ü' then 'u'
  else if c = 'Ú' ∨ c = 'Ù' ∨ c = 'Û' ∨ c = 'Ü' then 'U'
  else if c = 'ç' then 'c'
  else if c = 'Ç' then 'C'
  else c

/-- Split a character list at whitespace, keeping empty segments (the
segment structure of Python `str.split()` before its implicit filtering). -/
def fragmentosEspacos (l : List Char) : List (List Char) :=
  l.foldr
    (fun c acc =>
      if c.isWhitespace then [] :: acc
      else
        match acc with
        | [] => [[c]]
        | p :: ps => (c :: p) :: ps)
    [[]]

/-- Model of `" ".join(s.split())`: collapse whitespace runs to single
spaces and drop leading/trailing whitespace. -/
def colapsarEspacos (l : List Char) : List Char :=
  List.intercalate [' '] ((fragmentosEspacos l).filter (fun p => p ≠ []))

/-- Embedding of `excel_filiais._normalizar_cabecalho`: strip, lowercase,
strip accents, remove periods and collapse whitespace. -/
def normalizar_cabecalho (texto : String) : String :=
  ⟨colapsarEspacos
    (((pyStripL texto.toList).map (fun c => (dobrarDiacritico c).toLower)).filter
      (fun c => c ≠ '.'))⟩

/-- The accepted header names for the identifier column (`SINONIMOS_IE`). -/
def SINONIMOS_IE : List String :=
  ["INSC.ESTADUAL", "INSC. ESTADUAL", "i.e.", "ie", "i..e.",
   "inscrição estadual", "inscricao estadual"]

/-- Embedding of `excel_filiais._celula_bate_nome_ie`: the normalized cell
text equals one of the normalized synonyms, or one of the two extra
literals. -/
def celula_bate_nome_ie (valor : String) : Bool :=
  let n := normalizar_cabecalho valor
  if n = "" then false
  else
    SINONIMOS_IE.any (fun nome => normalizar_cabecalho nome = n)
      || n = "inscestadual" || n = "insc estadual"

/-- Embedding of `excel_filiais._obter_chave_ie`: first header key matching
the identifier-column synonyms (Python `dict` iteration preserves
insertion order, so the keys are carried as an ordered list). -/
def obter_chave_ie (chaves : List String) : Option String :=
  chaves.find? celula_bate_nome_ie

/-- Embedding of `excel_filiais._obter_chave_total`: first header key whose
normalization equals the normalization of `"TOTAL"`. -/
def obter_chave_total (chaves : List String) : Option String :=
  chaves.find? (fun chave => normalizar_cabecalho chave = normalizar_cabecalho "TOTAL")

/-! ### `excel_filiais._valor_ie_para_string` and amounts -/

/-- Zero-padded two-digit rendering of a nonnegative number, used for the
time components of a `datetime` rendering. -/
def pad2Nat (n : ℕ) : String :=
  if n < 10 then "0" ++ toString n else toString n

/-- Model of Python `str(datetime(ano, mes, dia))` (midnight time part). -/
def pyStrDatetime (ano mes dia : ℤ) : String :=
  toString ano ++ "-" ++ pad2Nat mes.toNat ++ "-" ++ pad2Nat dia.toNat ++ " 00:00:00"

/-- Embedding of `excel_filiais._valor_ie_para_string` for the cell types
it is invoked on (`str`, `int`, `float`): numbers are truncated to an
integer and rendered, strings are stripped; the result is left-zero-padded
when purely numeric and short.  Empty results become `None`. -/
def valor_ie_para_string (valor : PyVal) : Option String :=
  match valor with
  | .num q =>
      let s := toString (truncarParaZero q)
      if s = "" then Option.none else some (normalizar_ie_zeros_esquerda s)
  | .str s =>
      let t := pyStrip s
      if t = "" then Option.none else some (normalizar_ie_zeros_esquerda t)
  | _ => Option.none

/-- Model of `s.replace(",", ".")`: single-character substitution. -/
def substituirVirgulaPorPonto (l : List Char) : List Char :=
  l.map (fun c => if c = ',' then '.' else c)

/-- Model of Python `float(s)` on the decimal forms relevant here: optional
sign, integer digits, optional fractional part (at least one digit in
total); the value is kept as the exact decimal rational.  Exponents,
underscores, `inf`/`nan` and surrounding whitespace are outside the model
(every call site strips first); other inputs are `ValueError`, i.e.
`none`. -/
def pyFloatOpt (l : List Char) : Option ℚ :=
  let semSinal := fun (sinal : ℚ) (resto : List Char) =>
    let inteiros := resto.takeWhile Char.isDigit
    match resto.drop inteiros.length with
    | [] =>
        if inteiros = [] then Option.none
        else some (sinal * (digitosParaNat inteiros : ℚ))
    | '.' :: frac =>
        if frac.all Char.isDigit ∧ (inteiros ≠ [] ∨ frac ≠ []) then
          some (sinal * ((digitosParaNat inteiros : ℚ)
            + (digitosParaNat frac : ℚ) / (10 ^ frac.length : ℚ)))
        else Option.none
    | _ => Option.none
  match l with
  | '+' :: resto => semSinal 1 resto
  | '-' :: resto => semSinal (-1) resto
  | resto => semSinal 1 resto

/-- The TOTAL-column cell turned into the `valor_normal` of a work item,
as in `obter_dados_para_dae`: numeric pass-through; non-blank strings go
through `float` with the comma replaced by a period; anything unparseable
(including a `datetime`, whose `str` never parses as a float) is absent. -/
def valorPrincipalDaCelula (valor : PyVal) : Option ℚ :=
  match valor with
  | .num q => some q
  | .str s =>
      let t := pyStripL s.toList
      if t = [] then Option.none else pyFloatOpt (substituirVirgulaPorPonto t)
  | _ => Option.none

/-! ### `excel_filiais.obter_dados_para_dae` -/

/-- One work item of the batch, mirroring the dictionaries produced by
`obter_dados_para_dae` and consumed by `executar_fluxo_por_ie`.  The
`mes_ref`/`ano_ref` fields model the value of `int(item.get(...))`:
`some n` when the conversion succeeds with value `n`, `none` when it
raises `TypeError`/`ValueError`. -/
structure ItemDae where
  ie : String
  ie_digitos : String
  valor_normal : PyVal
  mes_ref : Option ℤ
  ano_ref : Option ℤ
deriving DecidableEq

/-- Embedding of `excel_filiais.obter_dados_para_dae`: rows are ordered
association lists from column name to cell value (the duck-typed row
dictionaries); `row.get(k)` is `lookup` with a `None` default.  Rows with
an empty identifier are dropped; the amount comes from the TOTAL column
when one exists. -/
def obter_dados_para_dae (linhas : List (List (String × PyVal)))
    (chaves : List String) (mes_ref ano_ref : Option ℤ) :
    Except String (List ItemDae) :=
  match mes_ref, ano_ref with
  | some mes, some ano =>
      match obter_chave_ie chaves with
      | Option.none =>
          .error "Coluna I.E. não encontrada no mapeamento. Nenhum dado para DAE."
      | some chaveIe =>
          let chaveTotal := obter_chave_total chaves
          .ok (linhas.filterMap (fun linha =>
            let valorIe := (linha.lookup chaveIe).getD .none
            let ieStr : Option String :=
              match valorIe with
              | .data a m d => some (pyStrDatetime a m d)
              | v => valor_ie_para_string v
            match ieStr with
            | Option.none => Option.none
            | some s =>
                if s = "" then Option.none
                else
                  let valorNormal : Option ℚ :=
                    match chaveTotal with
                    | Option.none => Option.none
                    | some chave => valorPrincipalDaCelula ((linha.lookup chave).getD .none)
                  some { ie := s
                         ie_digitos := ie_apenas_digitos s
                         valor_normal :=
                           match valorNormal with
                           | Option.none => PyVal.none
                           | some q => PyVal.num q
                         mes_ref := some mes
                         ano_ref := some ano }))
  | _, _ =>
      .error "Período de referência (mes_ref/ano_ref) é obrigatório. Verifique a extração da planilha."

/-! ### `automacao_sefaz_ce._preencher_formulario_dae` -/

/-- Model of the Python format specifier `02d`: decimal rendering
left-padded with zeros to width two. -/
def pad2 (n : ℤ) : String :=
  let s := toString n
  if s.length < 2 then "0" ++ s else s

/-- The payment month and year computed in `_preencher_formulario_dae`:
the month after the reference period, rolling December over to January of
the next year. -/
def data_pagamento (mes_ref ano_ref : ℤ) : ℤ × ℤ :=
  if mes_ref = 12 then (1, ano_ref + 1) else (mes_ref + 1, ano_ref)

/-- Round a rational to an integer, ties to even — the rounding applied by
Python `format`/f-strings to the exact value of a float. -/
def arredondarMeioPar (q : ℚ) : ℤ :=
  let f := Rat.floor q
  let r := q - (f : ℚ)
  if r < 1 / 2 then f
  else if 1 / 2 < r then f + 1
  else if f % 2 = 0 then f else f + 1

/-- Fixed-point rendering of a nonnegative integer number of hundredths,
with a period as decimal separator. -/
def renderizarCentesimos (n : ℕ) : String :=
  toString (n / 100) ++ "." ++ pad2Nat (n % 100)

/-- Model of `f"{valor:.2f}".replace(",", ".")` applied to the exact value
of the float `valor`: round to hundredths with ties to even and render
with two decimals.  (The f-string is locale-independent, so the `replace`
is a no-op; Python's `-0.00` for negative values rounding to zero is
rendered here without the sign, which no call in this development
exercises.) -/
def formatar_valor_2casas (q : ℚ) : String :=
  let n := arredondarMeioPar (100 * q)
  if n < 0 then "-" ++ renderizarCentesimos (-n).toNat
  else renderizarCentesimos n.toNat

/-- The six text fields written by `_preencher_formulario_dae` (reference
period, payment date, principal amount).  `valor_principal = none` models
the field left blank with a warning. -/
structure FormularioDae where
  mes_referencia : String
  ano_referencia : String
  dia_pagamento : String
  mes_pagamento : String
  ano_pagamento : String
  valor_principal : Option String
deriving DecidableEq

/-- Embedding of `automacao_sefaz_ce._preencher_formulario_dae`: the field
values written into the DAE form (the form is never submitted). -/
def preencher_formulario_dae (mes_ref ano_ref : ℤ) (valor_principal : Option ℚ) :
    FormularioDae :=
  { mes_referencia := pad2 mes_ref
    ano_referencia := toString ano_ref
    dia_pagamento := "20"
    mes_pagamento := pad2 (data_pagamento mes_ref ano_ref).1
    ano_pagamento := toString (data_pagamento mes_ref ano_ref).2
    valor_principal := valor_principal.map formatar_valor_2casas }

/-! ### `automacao_sefaz_ce._resolver_e_preencher_captcha` -/

/-- Environment of one run of `_resolver_e_preencher_captcha`: either the
captcha image never becomes visible within the element timeout
(`sem_imagem`, the wait raises and is caught), or it is visible and the
Anti-Captcha adapter returns `texto` (`none` models a `None` result). -/
inductive ResCaptcha where
  | sem_imagem : ResCaptcha
  | com_imagem (texto : Option String) : ResCaptcha
deriving DecidableEq

/-- Embedding of `automacao_sefaz_ce._resolver_e_preencher_captcha`.  The
result is the returned boolean together with the text written into the
captcha input field (`none` when nothing is written).  An invisible image
is the trivial-success branch; an absent or falsy resolver result returns
`False`; otherwise the first six characters of the text are written. -/
def resolver_e_preencher_captcha (amb : ResCaptcha) : Bool × Option String :=
  match amb with
  | .sem_imagem => (true, Option.none)
  | .com_imagem texto =>
      match texto with
      | Option.none => (false, Option.none)
      | some t => if t = "" then (false, Option.none) else (true, some ⟨t.toList.take 6⟩)

/-! ### `automacao_sefaz_ce.executar_fluxo_por_ie` -/

/-- Outcome of `_preencher_ie_e_avancar` for one item: the receipt
selector appeared (`ok`), it timed out — identifier not found (`nao_encontrada`),
or some other exception was raised inside the step; in the latter case
`captura_ok` tells whether the error-screenshot call itself succeeds
(when it does not, its exception escapes the method). -/
inductive ResPasso1 where
  | ok : ResPasso1
  | nao_encontrada : ResPasso1
  | excecao (captura_ok : Bool) : ResPasso1
deriving DecidableEq

/-- Outcome of a step guarded by `try/except` in the per-item loop
(`_selecionar_receita_e_preencher_dae`, or waiting for and filling the
form): success, or an exception whose message is `msg`; `captura_ok`
tells whether the error-screenshot call in the handler succeeds. -/
inductive ResPasso where
  | ok : ResPasso
  | excecao (msg : String) (captura_ok : Bool) : ResPasso
deriving DecidableEq

/-- Behaviour of the external browser/portal/OCR world for one item of the
batch: the outcome of each page-interaction step. -/
structure ComportamentoItem where
  passo1 : ResPasso1
  passo2 : ResPasso
  passo3 : ResPasso
  captcha : ResCaptcha
deriving DecidableEq

/-- The world in which a batch runs: a behaviour for the item at every
position of the list. -/
def Ambiente : Type := Nat → ComportamentoItem

/-- Ledger outcome of one item of the loop: silently skipped, appended to
`ies_sucesso`, or appended to `ies_erro` with a reason. -/
inductive Saida where
  | pulada : Saida
  | sucesso (ie : String) : Saida
  | falha (ie motivo : String) : Saida
deriving DecidableEq

/-- Truncated single-line failure reason recorded in the ledger:
`str(e).split("\n")[0].strip() if str(e) else padrao`, capped at 80
characters with an ellipsis suffix. -/
def motivo_truncado (msg padrao : String) : String :=
  let m := if msg = "" then padrao
           else ⟨pyStripL (msg.toList.takeWhile (fun c => c ≠ '\n'))⟩
  if 80 < m.toList.length then ⟨m.toList.take 77 ++ "...".toList⟩ else m

/-- Model of `ie or "(vazio)"`. -/
def ieOuVazio (ie : String) : String :=
  if ie = "" then "(vazio)" else ie

/-- One iteration of the loop body of `executar_fluxo_por_ie`, given the
behaviour of the outside world for this item.  `Except.error ()` models an
exception escaping the loop body (which aborts the whole batch); `.ok`
carries the item's ledger outcome.  The pre-checks run in source order:
month/year conversion, empty identifier, then the amount validity check
that silently skips; afterwards the four steps run with their handlers. -/
def processar_item (c : ComportamentoItem) (item : ItemDae) : Except Unit Saida :=
  match item.mes_ref, item.ano_ref with
  | some _, some _ =>
      if item.ie = "" ∨ item.ie_digitos = "" then
        .ok (.falha (ieOuVazio item.ie) "IE inválida ou vazia")
      else if valor_total_invalido item.valor_normal then
        .ok .pulada
      else
        match c.passo1 with
        | .nao_encontrada => .ok (.falha item.ie "IE não encontrada no site ao clicar em Avançar")
        | .excecao captura_ok =>
            if captura_ok then
              .ok (.falha item.ie "IE não encontrada no site ao clicar em Avançar")
            else .error ()
        | .ok =>
            match c.passo2 with
            | .excecao msg captura_ok =>
                if captura_ok then
                  .ok (.falha item.ie
                    (motivo_truncado msg "Falha ao selecionar receita ou Preencher DAE"))
                else .error ()
            | .ok =>
                match c.passo3 with
                | .excecao msg captura_ok =>
                    if captura_ok then
                      .ok (.falha item.ie (motivo_truncado msg "Falha ao preencher formulário"))
                    else .error ()
                | .ok =>
                    if (resolver_e_preencher_captcha c.captcha).1 then
                      .ok (.sucesso item.ie)
                    else .ok (.falha item.ie "Falha ao resolver ou preencher o captcha")
  | _, _ =>
      .ok (.falha (ieOuVazio item.ie) "Período (mês/ano) ausente nos dados da planilha")

/-- The loop of `executar_fluxo_por_ie` viewed as the sequence of per-item
ledger outcomes, starting at position `i`: an escaping exception anywhere
aborts the run (the lists are never returned). -/
def saidas_itens (amb : Ambiente) : Nat → List ItemDae → Except Unit (List Saida)
  | _, [] => .ok []
  | i, item :: resto =>
      match processar_item (amb i) item with
      | .error e => .error e
      | .ok saida => (saidas_itens amb (i + 1) resto).map (fun l => saida :: l)

/-- Accumulate ledger outcomes into the two result lists
`(ies_sucesso, ies_erro)`, preserving order. -/
def coletar_saidas : List Saida → List String × List (String × String)
  | [] => ([], [])
  | .pulada :: resto => coletar_saidas resto
  | .sucesso ie :: resto =>
      (ie :: (coletar_saidas resto).1, (coletar_saidas resto).2)
  | .falha ie motivo :: resto =>
      ((coletar_saidas resto).1, (ie, motivo) :: (coletar_saidas resto).2)

/-- Embedding of `automacao_sefaz_ce.executar_fluxo_por_ie`: process the
items in order against the world `amb`; on normal completion return
`(ies_sucesso, ies_erro)`, and on an exception escaping the loop return
`Except.error ()` (the browser teardown in the `finally` block runs either
way and returns no lists). -/
def executar_fluxo_por_ie (amb : Ambiente) (lista_dados : List ItemDae) :
    Except Unit (List String × List (String × String)) :=
  (saidas_itens amb 0 lista_dados).map coletar_saidas

/-! ### Derived predicates and helper lemmas -/

/-- An item that the loop skips silently: the month/year conversions
succeed, identifier and digits are non-empty (so the two earlier
pre-checks fall through), and the TOTAL value is invalid. -/
def item_pulado (item : ItemDae) : Bool :=
  item.mes_ref.isSome && item.ano_ref.isSome
    && !(item.ie == "") && !(item.ie_digitos == "")
    && valor_total_invalido item.valor_normal

/-- Whether a ledger outcome is the silent skip. -/
def Saida.ehPulada : Saida → Bool
  | .pulada => true
  | _ => false

lemma processar_item_pulada_iff (c : ComportamentoItem) (item : ItemDae) :
    processar_item c item = .ok .pulada ↔ item_pulado item = true := by
  obtain ⟨ie, dig, val, mesR, anoR⟩ := item
  rcases mesR with _ | mes <;> rcases anoR with _ | ano
  · simp [processar_item, item_pulado]
  · simp [processar_item, item_pulado]
  · simp [processar_item, item_pulado]
  · by_cases hie : ie = "" ∨ dig = ""
    · rcases hie with h | h <;> simp [processar_item, item_pulado, h]
    · push_neg at hie
      by_cases hv : valor_total_invalido val = true
      · simp [processar_item, item_pulado, hie.1, hie.2, hv]
      · rw [Bool.not_eq_true] at hv
        cases hp1 : c.passo1 <;> cases hp2 : c.passo2 <;> cases hp3 : c.passo3 <;>
          simp [processar_item, item_pulado, hie.1, hie.2, hv, hp1, hp2, hp3] <;>
          split_ifs <;> simp

lemma saidas_itens_comprimento (amb : Ambiente) :
    ∀ (items : List ItemDae) (i : Nat) (outs : List Saida),
      saidas_itens amb i items = .ok outs → outs.length = items.length := by
  intro items
  induction items with
  | nil =>
      intro i outs h
      simp only [saidas_itens] at h
      cases h
      rfl
  | cons item resto ih =>
      intro i outs h
      simp only [saidas_itens] at h
      cases hp : processar_item (amb i) item <;> rw [hp] at h
      · cases h
      · cases hr : saidas_itens amb (i + 1) resto <;> rw [hr] at h <;>
          simp only [Except.map] at h
        · cases h
        · cases h
          simp [ih (i + 1) _ hr]

lemma saidas_itens_get (amb : Ambiente) :
    ∀ (items : List ItemDae) (i j : Nat) (outs : List Saida) (item : ItemDae),
      saidas_itens amb i items = .ok outs → items[j]? = some item →
      ∃ s, processar_item (amb (i + j)) item = .ok s ∧ outs[j]? = some s := by
  intro items
  induction items with
  | nil =>
      intro i j outs item _ hj
      simp at hj
  | cons cab resto ih =>
      intro i j outs item h hj
      simp only [saidas_itens] at h
      cases hp : processar_item (amb i) cab <;> rw [hp] at h
      · cases h
      · cases hr : saidas_itens amb (i + 1) resto <;> rw [hr] at h <;>
          simp only [Except.map] at h
        · cases h
        · cases h
          cases j with
          | zero =>
              simp only [List.getElem?_cons_zero, Option.some.injEq] at hj
              subst hj
              exact ⟨_, by simpa using hp, by simp⟩
          | succ j =>
              simp only [List.getElem?_cons_succ] at hj ⊢
              have := ih (i + 1) j _ item hr hj
              simpa [Nat.add_assoc, Nat.add_comm 1 j] using this

lemma saidas_itens_erro (amb : Ambiente) :
    ∀ (items : List ItemDae) (i j : Nat) (item : ItemDae),
      items[j]? = some item → processar_item (amb (i + j)) item = .error () →
      saidas_itens amb i items = .error () := by
  intro items
  induction items with
  | nil =>
      intro i j item hj
      simp at hj
  | cons cab resto ih =>
      intro i j item hj herr
      simp only [saidas_itens]
      cases j with
      | zero =>
          simp only [List.getElem?_cons_zero, Option.some.injEq] at hj
          subst hj
          rw [Nat.add_zero] at herr
          rw [herr]
      | succ j =>
          simp only [List.getElem?_cons_succ] at hj
          cases hp : processar_item (amb i) cab
          · rfl
          · have : saidas_itens amb (i + 1) resto = .error () := by
              apply ih (i + 1) j item hj
              have : i + 1 + j = i + (j + 1) := by omega
              rw [this]
              exact herr
            rw [this]
            rfl

lemma coletar_saidas_filter_pulada :
    ∀ outs : List Saida,
      coletar_saidas (outs.filter (fun s => !s.ehPulada)) = coletar_saidas outs := by
  intro outs
  induction outs with
  | nil => rfl
  | cons s resto ih =>
      cases s with
      | pulada => exact ih
      | sucesso ie =>
          show coletar_saidas (Saida.sucesso ie :: List.filter _ resto) = _
          simp only [coletar_saidas, ih]
      | falha ie motivo =>
          show coletar_saidas (Saida.falha ie motivo :: List.filter _ resto) = _
          simp only [coletar_saidas, ih]

lemma coletar_saidas_comprimento :
    ∀ outs : List Saida,
      (coletar_saidas outs).1.length + (coletar_saidas outs).2.length
        = (outs.filter (fun s => !s.ehPulada)).length := by
  intro outs
  induction outs with
  | nil => rfl
  | cons s resto ih =>
      cases s with
      | pulada => exact ih
      | sucesso ie =>
          show (coletar_saidas (Saida.sucesso ie :: resto)).1.length
              + (coletar_saidas (Saida.sucesso ie :: resto)).2.length
              = (Saida.sucesso ie :: List.filter _ resto).length
          simp only [coletar_saidas, List.length_cons]
          omega
      | falha ie motivo =>
          show (coletar_saidas (Saida.falha ie motivo :: resto)).1.length
              + (coletar_saidas (Saida.falha ie motivo :: resto)).2.length
              = (Saida.falha ie motivo :: List.filter _ resto).length
          simp only [coletar_saidas, List.length_cons]
          omega

lemma rat_floor_eq (r : ℚ) (n : ℤ) (h1 : (n : ℚ) ≤ r) (h2 : r < n + 1) :
    Rat.floor r = n := by
  have ha : n ≤ Rat.floor r := Rat.le_floor.mpr h1
  have hb : ¬ (n + 1 ≤ Rat.floor r) := by
    intro hc
    have := Rat.le_floor.mp hc
    push_cast at this
    linarith
  omega

lemma arredondar_eq_of_bounds (r : ℚ) (n : ℤ) (h1 : (n : ℚ) ≤ r)
    (h2 : r < (n : ℚ) + 1 / 2) : arredondarMeioPar r = n := by
  unfold arredondarMeioPar
  rw [rat_floor_eq r n h1 (by linarith)]
  rw [if_pos (by linarith : r - (n : ℚ) < 1 / 2)]

lemma formatar_eq_of_bounds (q : ℚ) (n : ℕ) (h1 : ((n : ℕ) : ℚ) ≤ 100 * q)
    (h2 : 100 * q < ((n : ℕ) : ℚ) + 1 / 2) :
    formatar_valor_2casas q = renderizarCentesimos n := by
  unfold formatar_valor_2casas
  rw [arredondar_eq_of_bounds (100 * q) (n : ℤ)
    (by push_cast; linarith)
    (by push_cast; linarith)]
  rw [if_neg (by omega : ¬ ((n : ℤ) < (0 : ℤ)))]
  rw [Int.toNat_natCast]

lemma ie_apenas_digitos_comprimento (ie : String) (h : ie ≠ "") :
    (ie_apenas_digitos ie).length = 9 := by
  unfold ie_apenas_digitos
  rw [if_neg h]
  by_cases hle : ((pyStripL ie.toList).filter Char.isDigit).length ≤ DIGITOS_IE_CE
  · rw [if_pos hle]
    show (zfillL DIGITOS_IE_CE ((pyStripL ie.toList).filter Char.isDigit)).length = 9
    unfold zfillL
    rw [List.length_append, List.length_replicate]
    unfold DIGITOS_IE_CE at hle ⊢
    omega
  · rw [if_neg hle]
    show (((pyStripL ie.toList).filter Char.isDigit).take DIGITOS_IE_CE).length = 9
    rw [List.length_take]
    unfold DIGITOS_IE_CE at hle ⊢
    omega

lemma ie_apenas_digitos_nao_vazia (ie : String) (h : ie ≠ "") :
    ie_apenas_digitos ie ≠ "" := by
  intro hv
  have := ie_apenas_digitos_comprimento ie h
  rw [hv] at this
  simp at this

lemma processar_item_ehPulada (c : ComportamentoItem) (item : ItemDae) (s : Saida)
    (h : processar_item c item = .ok s) : s.ehPulada = item_pulado item := by
  cases hb : item_pulado item
  · cases s with
    | pulada =>
        have := (processar_item_pulada_iff c item).mp h
        rw [hb] at this
        cases this
    | sucesso ie => rfl
    | falha ie motivo => rfl
  · have := (processar_item_pulada_iff c item).mpr hb
    rw [h] at this
    injection this with hs
    rw [hs]
    rfl

lemma saidas_itens_filter_comprimento (amb : Ambiente) :
    ∀ (items : List ItemDae) (i : Nat) (outs : List Saida),
      saidas_itens amb i items = .ok outs →
      (outs.filter (fun x => !x.ehPulada)).length
        = (items.filter (fun it => !(item_pulado it))).length := by
  intro items
  induction items with
  | nil =>
      intro i outs h
      cases h
      rfl
  | cons cab resto ih =>
      intro i outs h
      simp only [saidas_itens] at h
      cases hp : processar_item (amb i) cab <;> rw [hp] at h
      · cases h
      · cases hr : saidas_itens amb (i + 1) resto <;> rw [hr] at h <;>
          simp only [Except.map] at h
        · cases h
        · cases h
          rw [List.filter_cons, List.filter_cons,
            processar_item_ehPulada (amb i) cab _ hp]
          cases hb : item_pulado cab <;> simp [hb, ih (i + 1) _ hr]

/-! ### Concrete fixtures used by counterexamples and witnesses -/

/-- World in which every page-interaction step succeeds and no captcha is
shown. -/
def comportamentoTudoOk : ComportamentoItem :=
  ⟨.ok, .ok, .ok, .sem_imagem⟩

/-- Environment assigning the all-success behaviour to every item. -/
def ambienteTudoOk : Ambiente := fun _ => comportamentoTudoOk

/-- A fully valid work item with a payable amount. -/
def itemValido : ItemDae :=
  ⟨"06.920.192-9", "069201929", .num 100, some 1, some 2026⟩

/-- An item whose amount is absent but whose other fields are valid. -/
def itemSemValor : ItemDae :=
  ⟨"06.888.777-1", "068887771", .none, some 1, some 2026⟩

/-- An item with an absent amount whose month also fails integer
conversion (`int(None)` raises `TypeError`). -/
def itemSemPeriodo : ItemDae :=
  ⟨"X", "123456789", .none, Option.none, some 2026⟩

/-- Environment in which step 2 raises and the error-screenshot call in
the handler itself fails for every item. -/
def ambienteCapturaFalha : Ambiente :=
  fun _ => ⟨.ok, .excecao "Locator.select_option falhou" false, .ok, .sem_imagem⟩

/-! ### Claims -/

/-- C1, counterexample.  The claim says an item with an invalid (absent)
amount is left out of both result lists regardless of its other fields.
`itemSemPeriodo` has an invalid amount (`None`) and an unparseable month,
and the run puts it in the failed list with the period-missing reason,
because the month/year pre-check runs before the amount pre-check. -/
theorem claim_C1_counterexample :
    valor_total_invalido itemSemPeriodo.valor_normal = true ∧
    executar_fluxo_por_ie ambienteTudoOk [itemSemPeriodo]
      = .ok ([], [("X", "Período (mês/ano) ausente nos dados da planilha")]) :=
  ⟨rfl, rfl⟩

/-- C1, amended.  An item whose amount value is invalid is silently
skipped — its loop outcome is the skip and it contributes to neither
result list — provided the earlier pre-checks fall through: its month and
year convert to integers and its identifier and digits are non-empty. -/
theorem claim_C1 (amb : Ambiente) (items : List ItemDae) (outs : List Saida)
    (i : Nat) (item : ItemDae)
    (hrun : saidas_itens amb 0 items = .ok outs)
    (hitem : items[i]? = some item)
    (hval : valor_total_invalido item.valor_normal = true)
    (hmes : item.mes_ref.isSome = true) (hano : item.ano_ref.isSome = true)
    (hie : item.ie ≠ "") (hdig : item.ie_digitos ≠ "") :
    outs[i]? = some .pulada ∧
    executar_fluxo_por_ie amb items
      = .ok (coletar_saidas (outs.filter (fun s => !s.ehPulada))) := by
  have hpul : item_pulado item = true := by
    unfold item_pulado
    rw [hmes, hano, hval]
    simp [hie, hdig]
  obtain ⟨s, hs, houts⟩ := saidas_itens_get amb items 0 i outs item hrun hitem
  have hsp : s = .pulada := by
    have h2 := (processar_item_pulada_iff (amb (0 + i)) item).mpr hpul
    rw [hs] at h2
    injection h2
  constructor
  · rw [hsp] at houts
    exact houts
  · unfold executar_fluxo_por_ie
    rw [hrun, coletar_saidas_filter_pulada]
    rfl

/-- C1, witness: a run over a single skippable item (valid period and
identifier, absent amount) yields the skip outcome and two empty result
lists. -/
theorem claim_C1_witness :
    ([Saida.pulada][0]? = some Saida.pulada) ∧
    executar_fluxo_por_ie ambienteTudoOk [itemSemValor]
      = .ok (coletar_saidas ([Saida.pulada].filter (fun s => !s.ehPulada))) :=
  claim_C1 ambienteTudoOk [itemSemValor] [Saida.pulada] 0 itemSemValor
    rfl rfl rfl rfl rfl (by decide) (by decide)

/-- C2: on a run that reaches the end of the item list, every item has
exactly one loop outcome, that outcome is the silent skip exactly when the
item fails the amount pre-check (with the earlier pre-checks falling
through), the two result lists are the collection of the non-skip
outcomes, and their sizes add up to the number of non-skipped items — so
each non-skipped item contributes exactly one ledger entry, never two and
never zero. -/
theorem claim_C2 (amb : Ambiente) (items : List ItemDae)
    (s : List String) (f : List (String × String))
    (hrun : executar_fluxo_por_ie amb items = .ok (s, f)) :
    s.length + f.length = (items.filter (fun it => !(item_pulado it))).length ∧
    ∃ outs, saidas_itens amb 0 items = .ok outs ∧
      coletar_saidas outs = (s, f) ∧
      outs.length = items.length ∧
      ∀ (i : Nat) (item : ItemDae), items[i]? = some item →
        ∃ o : Saida, outs[i]? = some o ∧ o.ehPulada = item_pulado item := by
  unfold executar_fluxo_por_ie at hrun
  cases houts : saidas_itens amb 0 items with
  | error e =>
      rw [houts] at hrun
      simp only [Except.map] at hrun
      cases hrun
  | ok outs =>
      rw [houts] at hrun
      simp only [Except.map] at hrun
      injection hrun with hcol
      constructor
      · have h1 := coletar_saidas_comprimento outs
        rw [hcol] at h1
        rw [saidas_itens_filter_comprimento amb items 0 outs houts] at h1
        simpa using h1
      · refine ⟨outs, rfl, hcol, saidas_itens_comprimento amb items 0 outs houts, ?_⟩
        intro i item hitem
        obtain ⟨o, ho, houtsi⟩ := saidas_itens_get amb items 0 i outs item houts hitem
        exact ⟨o, houtsi, processar_item_ehPulada _ item o ho⟩

/-- C2, witness: a three-item batch (one success, one skip, one
period-parse failure) instantiating the statement with its concrete
ledger. -/
theorem claim_C2_witness :
    ((["06.920.192-9"] : List String).length
        + ([("X", "Período (mês/ano) ausente nos dados da planilha")]
            : List (String × String)).length
      = ([itemValido, itemSemValor, itemSemPeriodo].filter
          (fun it => !(item_pulado it))).length) ∧
    ∃ outs, saidas_itens ambienteTudoOk 0 [itemValido, itemSemValor, itemSemPeriodo]
        = .ok outs ∧
      coletar_saidas outs
        = (["06.920.192-9"], [("X", "Período (mês/ano) ausente nos dados da planilha")]) ∧
      outs.length = [itemValido, itemSemValor, itemSemPeriodo].length ∧
      ∀ (i : Nat) (item : ItemDae), [itemValido, itemSemValor, itemSemPeriodo][i]? = some item →
        ∃ o : Saida, outs[i]? = some o ∧ o.ehPulada = item_pulado item :=
  claim_C2 ambienteTudoOk [itemValido, itemSemValor, itemSemPeriodo]
    ["06.920.192-9"] [("X", "Período (mês/ano) ausente nos dados da planilha")] rfl

/-- C3, counterexample.  The claim says a failure of the error-screenshot
call in a step's failure branch is swallowed, the original error is still
recorded in the ledger and the loop continues.  In the code the screenshot
call is not guarded: when it raises (modelled by `captura_ok = false`),
the exception escapes the loop — the batch run of two valid items returns
no ledger at all instead of recording the original error and processing
the second item. -/
theorem claim_C3_counterexample :
    executar_fluxo_por_ie ambienteCapturaFalha [itemValido, itemValido] = .error () :=
  rfl

/-- C3, amended.  When an exception with message `msg` occurs inside step
2 of a processed item, the failure branch takes an error screenshot: if
that screenshot call succeeds, the truncated original error is recorded as
the item's ledger entry and the loop continues; if the screenshot call
itself fails, its exception escapes and the whole batch aborts with no
entry for the item. -/
theorem claim_C3 (amb : Ambiente) (items : List ItemDae) (i : Nat)
    (item : ItemDae) (msg : String)
    (hitem : items[i]? = some item)
    (hmes : item.mes_ref.isSome = true) (hano : item.ano_ref.isSome = true)
    (hie : item.ie ≠ "") (hdig : item.ie_digitos ≠ "")
    (hval : valor_total_invalido item.valor_normal = false)
    (hp1 : (amb i).passo1 = .ok) :
    ((amb i).passo2 = .excecao msg true →
      ∀ outs, saidas_itens amb 0 items = .ok outs →
        outs[i]? = some (.falha item.ie
          (motivo_truncado msg "Falha ao selecionar receita ou Preencher DAE"))) ∧
    ((amb i).passo2 = .excecao msg false →
      saidas_itens amb 0 items = .error ()) := by
  obtain ⟨mes, hmes2⟩ := Option.isSome_iff_exists.mp hmes
  obtain ⟨ano, hano2⟩ := Option.isSome_iff_exists.mp hano
  constructor
  · intro hp2 outs hrun
    obtain ⟨s, hs, houts⟩ := saidas_itens_get amb items 0 i outs item hrun hitem
    have hproc : processar_item (amb (0 + i)) item
        = .ok (.falha item.ie
          (motivo_truncado msg "Falha ao selecionar receita ou Preencher DAE")) := by
      unfold processar_item
      rw [hmes2, hano2]
      rw [if_neg (by tauto : ¬ (item.ie = "" ∨ item.ie_digitos = ""))]
      rw [if_neg (by simp [hval] : ¬ (valor_total_invalido item.valor_normal = true))]
      rw [Nat.zero_add, hp1, hp2]
      rfl
    rw [hproc] at hs
    injection hs with hs2
    rw [hs2]
    exact houts
  · intro hp2
    apply saidas_itens_erro amb items 0 i item hitem
    unfold processar_item
    rw [hmes2, hano2]
    rw [if_neg (by tauto : ¬ (item.ie = "" ∨ item.ie_digitos = ""))]
    rw [if_neg (by simp [hval] : ¬ (valor_total_invalido item.valor_normal = true))]
    rw [Nat.zero_add, hp1, hp2]
    rfl

/-- C3, witness: the amended statement instantiated at a one-item batch in
the world where step 2 raises and the screenshot call fails. -/
theorem claim_C3_witness :
    ((ambienteCapturaFalha 0).passo2 = .excecao "Locator.select_option falhou" true →
      ∀ outs, saidas_itens ambienteCapturaFalha 0 [itemValido] = .ok outs →
        outs[0]? = some (.falha itemValido.ie
          (motivo_truncado "Locator.select_option falhou"
            "Falha ao selecionar receita ou Preencher DAE"))) ∧
    ((ambienteCapturaFalha 0).passo2 = .excecao "Locator.select_option falhou" false →
      saidas_itens ambienteCapturaFalha 0 [itemValido] = .error ()) :=
  claim_C3 ambienteCapturaFalha [itemValido] 0 itemValido
    "Locator.select_option falhou" rfl rfl rfl (by decide) (by decide) (by decide) rfl

/-- C4: for a reference period with month 1–12, the form receives payment
day `"20"`, and the payment month/year is exactly the calendar month after
the reference period (one step in months, with a month that is again in
1–12); in particular period 01/2026 fills payment 20/02/2026 and period
12/2025 fills payment 20/01/2026. -/
theorem claim_C4 (mes ano : ℤ) (h1 : 1 ≤ mes) (h2 : mes ≤ 12) :
    (∀ valor, (preencher_formulario_dae mes ano valor).dia_pagamento = "20") ∧
    12 * (data_pagamento mes ano).2 + ((data_pagamento mes ano).1 - 1)
      = (12 * ano + (mes - 1)) + 1 ∧
    1 ≤ (data_pagamento mes ano).1 ∧ (data_pagamento mes ano).1 ≤ 12 ∧
    preencher_formulario_dae 1 2026 Option.none
      = ⟨"01", "2026", "20", "02", "2026", Option.none⟩ ∧
    preencher_formulario_dae 12 2025 Option.none
      = ⟨"12", "2025", "20", "01", "2026", Option.none⟩ := by
  refine ⟨fun valor => rfl, ?_, ?_, ?_, rfl, rfl⟩ <;>
    · unfold data_pagamento
      split_ifs with h <;> simp <;> omega

/-- C4, witness: the statement at the concrete period 05/2026. -/
theorem claim_C4_witness :
    ((1 : ℤ) ≤ 5 ∧ (5 : ℤ) ≤ 12) ∧
    ((∀ valor, (preencher_formulario_dae 5 2026 valor).dia_pagamento = "20") ∧
      12 * (data_pagamento 5 2026).2 + ((data_pagamento 5 2026).1 - 1)
        = (12 * 2026 + (5 - 1)) + 1 ∧
      1 ≤ (data_pagamento 5 2026).1 ∧ (data_pagamento 5 2026).1 ≤ 12 ∧
      preencher_formulario_dae 1 2026 Option.none
        = ⟨"01", "2026", "20", "02", "2026", Option.none⟩ ∧
      preencher_formulario_dae 12 2025 Option.none
        = ⟨"12", "2025", "20", "01", "2026", Option.none⟩) :=
  ⟨⟨by decide, by decide⟩, claim_C4 5 2026 (by decide) (by decide)⟩

lemma periodoDaLinha_none (l : List PyVal)
    (h : ∀ c ∈ l, parsear_celula_periodo c = Option.none) :
    periodoDaLinha l = Option.none := by
  induction l with
  | nil => rfl
  | cons c resto ih =>
      unfold periodoDaLinha
      rw [h c (List.mem_cons_self c resto)]
      exact ih (fun x hx => h x (List.mem_cons_of_mem c hx))

lemma periodoDasLinhas_none (ls : List (List PyVal))
    (h : ∀ l ∈ ls, periodoDaLinha l = Option.none) :
    periodoDasLinhas ls = Option.none := by
  induction ls with
  | nil => rfl
  | cons l resto ih =>
      unfold periodoDasLinhas
      rw [h l (List.mem_cons_self l resto)]
      exact ih (fun x hx => h x (List.mem_cons_of_mem l hx))

/-- C5: the period parser maps `"1/1/2026"`, `"jan-26"` and `"jan/26"` to
(1, 2026), a date-typed cell for 2026-03-15 to (3, 2026) and the Excel
serial 46096 (1899-12-30 plus 46096 days, i.e. 2026-03-15) to (3, 2026);
and when no cell of the scanned title region (12 rows × 30 columns)
parses, extraction fails with the `ValueError` message instead of falling
back to a default. -/
theorem claim_C5 (planilha : List (List PyVal))
    (h : ∀ linha ∈ planilha.take MAX_LINHAS_BUSCA_PERIODO,
      ∀ c ∈ linha.take MAX_COLUNAS_BUSCA_PERIODO,
        parsear_celula_periodo c = Option.none) :
    parsear_celula_periodo (.str "1/1/2026") = some (1, 2026) ∧
    parsear_celula_periodo (.str "jan-26") = some (1, 2026) ∧
    parsear_celula_periodo (.str "jan/26") = some (1, 2026) ∧
    parsear_celula_periodo (.data 2026 3 15) = some (3, 2026) ∧
    parsear_celula_periodo (.num 46096) = some (3, 2026) ∧
    dataDeSerialExcel 46096 = (2026, 3, 15) ∧
    extrair_periodo_da_area_titulo planilha
      = .error ("Período de referência não encontrado na área do título. "
        ++ "Inclua a data (ex.: 1/1/2026) ou mês/ano (ex.: jan-26) ao lado do título "
        ++ "'APURAÇÃO DE ICMS CEARA'.") := by
  refine ⟨by decide, by decide, by decide, by decide, by decide, by decide, ?_⟩
  unfold extrair_periodo_da_area_titulo
  rw [periodoDasLinhas_none]
  intro l hl
  rw [List.mem_map] at hl
  obtain ⟨linha, hmem, hEq⟩ := hl
  apply periodoDaLinha_none
  intro c hc
  rw [← hEq] at hc
  exact h linha hmem c hc

/-- C5, witness: a sheet whose scanned cells are all unparseable. -/
theorem claim_C5_witness :
    (∀ linha ∈ ([[PyVal.str "x", PyVal.none], [PyVal.num 5]]).take MAX_LINHAS_BUSCA_PERIODO,
      ∀ c ∈ linha.take MAX_COLUNAS_BUSCA_PERIODO,
        parsear_celula_periodo c = Option.none) ∧
    parsear_celula_periodo (.str "1/1/2026") = some (1, 2026) ∧
    parsear_celula_periodo (.str "jan-26") = some (1, 2026) ∧
    parsear_celula_periodo (.str "jan/26") = some (1, 2026) ∧
    parsear_celula_periodo (.data 2026 3 15) = some (3, 2026) ∧
    parsear_celula_periodo (.num 46096) = some (3, 2026) ∧
    dataDeSerialExcel 46096 = (2026, 3, 15) ∧
    extrair_periodo_da_area_titulo [[PyVal.str "x", PyVal.none], [PyVal.num 5]]
      = .error ("Período de referência não encontrado na área do título. "
        ++ "Inclua a data (ex.: 1/1/2026) ou mês/ano (ex.: jan-26) ao lado do título "
        ++ "'APURAÇÃO DE ICMS CEARA'.") :=
  ⟨by decide, claim_C5 [[PyVal.str "x", PyVal.none], [PyVal.num 5]] (by decide)⟩

/-- C6: for every non-empty identifier string, the digits-only identifier
for form entry has length exactly 9 — shorter digit sequences are
left-zero-padded (`"123"` gives `"000000123"`) and longer ones are
truncated to the first nine digits (`"1234567890123"` gives
`"123456789"`). -/
theorem claim_C6 (ie : String) (h : ie ≠ "") :
    (ie_apenas_digitos ie).length = 9 ∧
    ie_apenas_digitos "123" = "000000123" ∧
    ie_apenas_digitos "1234567890123" = "123456789" :=
  ⟨ie_apenas_digitos_comprimento ie h, by decide, by decide⟩

/-- C6, witness: the statement at a punctuated identifier. -/
theorem claim_C6_witness :
    ("06.123.456-7" : String) ≠ "" ∧
    ((ie_apenas_digitos "06.123.456-7").length = 9 ∧
      ie_apenas_digitos "123" = "000000123" ∧
      ie_apenas_digitos "1234567890123" = "123456789") :=
  ⟨by decide, claim_C6 "06.123.456-7" (by decide)⟩

/-- C9: a non-empty identifier containing no digit character at all is
not rejected: every character is stripped and the result is zero-padded
to the fabricated all-zero identifier `"000000000"`. -/
theorem claim_C9 (ie : String) (h1 : ie ≠ "")
    (h2 : ∀ c ∈ ie.toList, c.isDigit = false) :
    ie_apenas_digitos ie = "000000000" := by
  unfold ie_apenas_digitos
  rw [if_neg h1]
  have hnil : (pyStripL ie.toList).filter Char.isDigit = [] := by
    apply List.filter_eq_nil_iff.mpr
    intro c hc
    have hmem : c ∈ ie.toList := by
      unfold pyStripL at hc
      rw [List.mem_reverse] at hc
      have hc2 := (List.dropWhile_sublist _).subset hc
      rw [List.mem_reverse] at hc2
      exact (List.dropWhile_sublist _).subset hc2
    simp [h2 c hmem]
  rw [hnil]
  rw [if_pos (by simp [DIGITOS_IE_CE] : ([] : List Char).length ≤ DIGITOS_IE_CE)]
  rfl

/-- C9, witness: the statement at `"ABC"`. -/
theorem claim_C9_witness :
    (("ABC" : String) ≠ "" ∧ ∀ c ∈ ("ABC" : String).toList, c.isDigit = false) ∧
    ie_apenas_digitos "ABC" = "000000000" :=
  ⟨⟨by decide, by decide⟩, claim_C9 "ABC" (by decide) (by decide)⟩

/-- C7: an invisible captcha image is trivial success (`True` with nothing
written) and the item still completes as a success; a visible image with
an absent or empty resolver result gives the item a FAILED ledger entry
with the captcha reason; and a non-empty recognized text is written
truncated to at most its first six characters. -/
theorem claim_C7 (c : ComportamentoItem) (item : ItemDae) (t : String) (ht : t ≠ "")
    (hmes : item.mes_ref.isSome = true) (hano : item.ano_ref.isSome = true)
    (hie : item.ie ≠ "") (hdig : item.ie_digitos ≠ "")
    (hval : valor_total_invalido item.valor_normal = false)
    (hp1 : c.passo1 = .ok) (hp2 : c.passo2 = .ok) (hp3 : c.passo3 = .ok) :
    resolver_e_preencher_captcha .sem_imagem = (true, Option.none) ∧
    (c.captcha = .sem_imagem → processar_item c item = .ok (.sucesso item.ie)) ∧
    (c.captcha = .com_imagem Option.none →
      processar_item c item = .ok (.falha item.ie "Falha ao resolver ou preencher o captcha")) ∧
    (c.captcha = .com_imagem (some "") →
      processar_item c item = .ok (.falha item.ie "Falha ao resolver ou preencher o captcha")) ∧
    resolver_e_preencher_captcha (.com_imagem (some t)) = (true, some ⟨t.toList.take 6⟩) ∧
    (⟨t.toList.take 6⟩ : String).length ≤ 6 := by
  obtain ⟨mes, hmes2⟩ := Option.isSome_iff_exists.mp hmes
  obtain ⟨ano, hano2⟩ := Option.isSome_iff_exists.mp hano
  refine ⟨rfl, ?_, ?_, ?_, ?_, ?_⟩
  · intro hcap
    unfold processar_item
    rw [hmes2, hano2]
    rw [if_neg (by tauto : ¬ (item.ie = "" ∨ item.ie_digitos = ""))]
    rw [if_neg (by simp [hval] : ¬ (valor_total_invalido item.valor_normal = true))]
    rw [hp1, hp2, hp3, hcap]
    rfl
  · intro hcap
    unfold processar_item
    rw [hmes2, hano2]
    rw [if_neg (by tauto : ¬ (item.ie = "" ∨ item.ie_digitos = ""))]
    rw [if_neg (by simp [hval] : ¬ (valor_total_invalido item.valor_normal = true))]
    rw [hp1, hp2, hp3, hcap]
    rfl
  · intro hcap
    unfold processar_item
    rw [hmes2, hano2]
    rw [if_neg (by tauto : ¬ (item.ie = "" ∨ item.ie_digitos = ""))]
    rw [if_neg (by simp [hval] : ¬ (valor_total_invalido item.valor_normal = true))]
    rw [hp1, hp2, hp3, hcap]
    rfl
  · simp only [resolver_e_preencher_captcha]
    rw [if_neg ht]
  · show (t.toList.take 6).length ≤ 6
    rw [List.length_take]
    omega

/-- C7, witness: the statement at a concrete world, valid item and the
recognized text `"abcdefgh"`. -/
theorem claim_C7_witness :
    (("abcdefgh" : String) ≠ "" ∧
      itemValido.mes_ref.isSome = true ∧ itemValido.ano_ref.isSome = true ∧
      itemValido.ie ≠ "" ∧ itemValido.ie_digitos ≠ "" ∧
      valor_total_invalido itemValido.valor_normal = false ∧
      comportamentoTudoOk.passo1 = .ok ∧ comportamentoTudoOk.passo2 = .ok ∧
      comportamentoTudoOk.passo3 = .ok) ∧
    (resolver_e_preencher_captcha .sem_imagem = (true, Option.none) ∧
      (comportamentoTudoOk.captcha = .sem_imagem →
        processar_item comportamentoTudoOk itemValido = .ok (.sucesso itemValido.ie)) ∧
      (comportamentoTudoOk.captcha = .com_imagem Option.none →
        processar_item comportamentoTudoOk itemValido
          = .ok (.falha itemValido.ie "Falha ao resolver ou preencher o captcha")) ∧
      (comportamentoTudoOk.captcha = .com_imagem (some "") →
        processar_item comportamentoTudoOk itemValido
          = .ok (.falha itemValido.ie "Falha ao resolver ou preencher o captcha")) ∧
      resolver_e_preencher_captcha (.com_imagem (some "abcdefgh"))
        = (true, some ⟨("abcdefgh" : String).toList.take 6⟩) ∧
      (⟨("abcdefgh" : String).toList.take 6⟩ : String).length ≤ 6) :=
  ⟨⟨by decide, rfl, rfl, by decide, by decide, by decide, rfl, rfl, rfl⟩,
    claim_C7 comportamentoTudoOk itemValido "abcdefgh" (by decide)
      rfl rfl (by decide) (by decide) (by decide) rfl rfl rfl⟩

/-- The IEEE-754 binary64 value of the Python float literal `1277.395`
(and of `float("1277.395")`): the dyadic rational
`2809021311525847 / 2 ^ 41`.  That it is the correctly rounded double is
witnessed in `claim_C8` by its distance to the exact decimal being under
half an ulp (`2 ^ (-42)` at this magnitude). -/
def float1277_395 : ℚ := 2809021311525847 / 2199023255552

/-- C8: amount handling round-trips across separator styles — the string
`"1277,39"` (comma decimal separator) parses to the same numeric amount as
`"1277.39"`, namely 1277.39; and the float amount 1277.395 is rendered for
form entry as `"1277.39"` (two-decimal fixed point with `"."`), since the
binary64 value of 1277.395 lies just below the midpoint. -/
theorem claim_C8 :
    valorPrincipalDaCelula (.str "1277,39") = valorPrincipalDaCelula (.str "1277.39") ∧
    valorPrincipalDaCelula (.str "1277,39") = some (127739 / 100) ∧
    |float1277_395 - 1277395 / 1000| < 1 / 2 ^ 42 ∧
    formatar_valor_2casas float1277_395 = "1277.39" := by
  refine ⟨rfl, ?_, by rw [abs_lt]; constructor <;> norm_num [float1277_395], ?_⟩
  · show some ((1 : ℚ) * ((1277 : ℕ) + ((39 : ℕ) : ℚ) / (10 ^ 2 : ℚ))) = some (127739 / 100)
    norm_num
  · rw [formatar_eq_of_bounds float1277_395 127739 (by norm_num [float1277_395])
      (by norm_num [float1277_395])]
    rfl

lemma saidas_itens_todos_pulados (amb : Ambiente) :
    ∀ (itens : List ItemDae) (i : Nat),
      (∀ item ∈ itens, item_pulado item = true) →
      saidas_itens amb i itens = .ok (List.replicate itens.length Saida.pulada) := by
  intro itens
  induction itens with
  | nil => intro i _; rfl
  | cons cab resto ih =>
      intro i h
      have hp : processar_item (amb i) cab = .ok .pulada :=
        (processar_item_pulada_iff (amb i) cab).mpr (h cab (List.mem_cons_self cab resto))
      simp only [saidas_itens, hp, ih (i + 1) (fun x hx => h x (List.mem_cons_of_mem cab hx)),
        Except.map, List.length_cons, List.replicate]

lemma coletar_saidas_replicate_pulada :
    ∀ n : Nat, coletar_saidas (List.replicate n Saida.pulada) = ([], []) := by
  intro n
  induction n with
  | zero => rfl
  | succ n ih => simpa [List.replicate, coletar_saidas] using ih

/-- C10: when no header key normalizes to `"total"`, the row builder gives
every produced work item an absent amount, so the orchestrator silently
skips every item of the sheet and returns two empty result collections. -/
theorem claim_C10 (amb : Ambiente) (linhas : List (List (String × PyVal)))
    (chaves : List String) (mes ano : ℤ) (itens : List ItemDae)
    (htot : obter_chave_total chaves = Option.none)
    (hdados : obter_dados_para_dae linhas chaves (some mes) (some ano) = .ok itens) :
    executar_fluxo_por_ie amb itens = .ok ([], []) := by
  have hall : ∀ item ∈ itens, item_pulado item = true := by
    intro item hmem
    unfold obter_dados_para_dae at hdados
    cases hie : obter_chave_ie chaves <;> rw [hie] at hdados
    · cases hdados
    · rw [htot] at hdados
      injection hdados with hlist
      rw [← hlist] at hmem
      rw [List.mem_filterMap] at hmem
      obtain ⟨linha, _, hf⟩ := hmem
      simp only at hf
      split at hf
      · cases hf
      · split at hf
        · cases hf
        · rename_i s hs hvazio
          injection hf with hitem
          rw [← hitem]
          unfold item_pulado
          simp only [Option.isSome_some, Bool.true_and]
          have hdigitos : ie_apenas_digitos s ≠ "" :=
            ie_apenas_digitos_nao_vazia s hvazio
          simp [hvazio, hdigitos, valor_total_invalido]
  unfold executar_fluxo_por_ie
  rw [saidas_itens_todos_pulados amb itens 0 hall]
  simp only [Except.map, coletar_saidas_replicate_pulada]

/-- C10, witness: a sheet with identifier and `NORMAL` columns but no
`TOTAL` column produces one item with an absent amount, and the batch over
it returns two empty collections. -/
theorem claim_C10_witness :
    (obter_chave_total ["INSC.ESTADUAL", "NORMAL"] = Option.none ∧
      obter_dados_para_dae [[("INSC.ESTADUAL", PyVal.str "069201929")]]
        ["INSC.ESTADUAL", "NORMAL"] (some 1) (some 2026)
        = .ok [⟨"069201929", "069201929", PyVal.none, some 1, some 2026⟩]) ∧
    executar_fluxo_por_ie ambienteTudoOk
      [⟨"069201929", "069201929", PyVal.none, some 1, some 2026⟩] = .ok ([], []) :=
  ⟨⟨by decide, by rfl⟩,
    claim_C10 ambienteTudoOk [[("INSC.ESTADUAL", PyVal.str "069201929")]]
      ["INSC.ESTADUAL", "NORMAL"] 1 2026
      [⟨"069201929", "069201929", PyVal.none, some 1, some 2026⟩] (by decide) (by rfl)⟩
